import Mathlib

/-!
Verification of the protocol instruction codec and transaction assembler of
sonabuild/protocols: a shallow embedding, in Lean 4, of the amount codec
(`src/shared/amounts.js`), the transaction validators
(`src/shared/transactions.js`), the Solend account parsers
(`src/protocols/solend/context/parser.js`,
`src/protocols/solend/query/obligation.js`) and the instruction builders
(`src/protocols/solend/enclave/deposit.js`, `withdraw.js`,
`src/protocols/wallet/enclave/transfer.js`), together with theorems settling
the spec claims about them.

Modelling conventions:
- A Node `Buffer` is a `List Nat` of byte values; `Buffer.readUInt16LE`,
  `Buffer.readBigUInt64LE`, `Buffer.slice` become the bounds-explicit list
  operations below.
- A JavaScript `throw` becomes `Except.error` carrying the message the source
  builds; a function whose every path returns normally is a total Lean
  function.
- JavaScript numeric amounts are embedded as exact rationals; the source's
  double arithmetic on the guarded paths proved here either involves only
  integers below 2^53 (where doubles are exact) or is re-guarded by an
  integer-only check (`Number.isSafeInteger`), so the guard structure proved
  about the rational model is the guard structure of the source.
- `DataView.setBigUint64(off, x, true)` stores `x mod 2^64` little-endian;
  `leBytes 8` below reduces modulo `2^64` accordingly.
-/

set_option maxRecDepth 40000

namespace Protocols

/-! ## Byte-level helpers -/

/-- Little-endian encoding of `n` into `k` bytes (each `< 256`); for `k = 8`
this is exactly what `DataView.setBigUint64(_, n, true)` stores, i.e. the
encoding of `n mod 2^64`. -/
def leBytes : Nat → Nat → List Nat
  | 0, _ => []
  | k + 1, n => n % 256 :: leBytes k (n / 256)

/-- Little-endian value of a byte list (decoding inverse of `leBytes`). -/
def leValue : List Nat → Nat
  | [] => 0
  | b :: bs => b + 256 * leValue bs

theorem leBytes_length (k n : Nat) : (leBytes k n).length = k := by
  induction k generalizing n with
  | zero => rfl
  | succ k ih => simp [leBytes, ih]

theorem leValue_leBytes (k n : Nat) : leValue (leBytes k n) = n % 256 ^ k := by
  induction k generalizing n with
  | zero => simp [leBytes, leValue, Nat.mod_one]
  | succ k ih =>
      simp only [leBytes, leValue, ih]
      rw [pow_succ, mul_comm (256 ^ k) 256, Nat.mod_mul]

/-- Source `Buffer.readUInt16LE(off)` on a byte list (missing bytes read as 0; the
source always bounds-checks before reading, so this default is never hit in
the guarded paths). -/
def readUInt16LE (data : List Nat) (off : Nat) : Nat :=
  data.getD off 0 + 256 * data.getD (off + 1) 0

/-- Source `Buffer.readBigUInt64LE(off)` on a byte list. -/
def readBigUInt64LE (data : List Nat) (off : Nat) : Nat :=
  leValue ((data.drop off).take 8)

/-- Source `s.contains t` for strings, as list-infix of the underlying characters
(used to state that an error message names a value). -/
def strContains (s t : String) : Prop :=
  t.data <:+: s.data

theorem strContains_append_three (a t b : String) :
    strContains (a ++ t ++ b) t := by
  refine ⟨a.data, b.data, ?_⟩
  simp [strContains, String.data_append]

/-! ## `src/shared/transactions.js` — transaction validators -/

/-- Source `MAX_TRANSACTION_SIZE` (bytes). -/
def MAX_TRANSACTION_SIZE : Nat := 1232

/-- Source `WARNING_THRESHOLD` (bytes). -/
def WARNING_THRESHOLD : Nat := 1100

/-- Source `MAX_INSTRUCTIONS`. -/
def MAX_INSTRUCTIONS : Nat := 64

/-- Result shape of `validateTransactionSize`. -/
structure SizeValidation where
  valid : Bool
  size : Nat
  error : Option String
  warning : Option String
deriving Repr, DecidableEq

/-- Source `validateTransactionSize` from `src/shared/transactions.js` (lines
18-67), taken at a string input already decoded from base64: the Node
`Buffer.from(wire, 'base64')` step is external runtime code, so the model
receives the decoded byte sequence and `sizeInBytes` is its length. The
rounded-percent interpolation of the warning message is `round(100*size/1232)`
computed exactly. -/
def validateTransactionSize (wireBytes : List Nat) (protocolName : String) :
    SizeValidation :=
  let sizeInBytes := wireBytes.length
  if sizeInBytes > MAX_TRANSACTION_SIZE then
    { valid := false
      size := sizeInBytes
      error := some ("Transaction too large: " ++ toString sizeInBytes ++
        " bytes exceeds maximum " ++ toString MAX_TRANSACTION_SIZE ++
        " bytes for " ++ protocolName ++
        ". This transaction will be rejected by the Solana network. " ++
        "Consider reducing the number of instructions or accounts.")
      warning := none }
  else if sizeInBytes > WARNING_THRESHOLD then
    { valid := true
      size := sizeInBytes
      error := none
      warning := some ("Transaction size " ++ toString sizeInBytes ++
        " bytes is approaching the limit of " ++
        toString MAX_TRANSACTION_SIZE ++ " bytes (" ++
        toString ((200 * sizeInBytes + MAX_TRANSACTION_SIZE) /
          (2 * MAX_TRANSACTION_SIZE)) ++
        "% of maximum). Consider optimizing to avoid future issues.") }
  else
    { valid := true, size := sizeInBytes, error := none, warning := none }

/-- Result shape of `validateInstructionCount`. -/
structure CountValidation where
  valid : Bool
  count : Int
  error : Option String
  warning : Option String
deriving Repr, DecidableEq

/-- Source `validateInstructionCount` from `src/shared/transactions.js` (lines
75-123), at an integer input (for non-number or non-integer inputs the source
fails immediately with a type error; the claims quantify over integers, which
the `Int` parameter captures, negative values included). -/
def validateInstructionCount (instructionCount : Int) (protocolName : String) :
    CountValidation :=
  if instructionCount < 0 then
    { valid := false
      count := instructionCount
      error := some ("Invalid instruction count: " ++
        toString instructionCount ++ " (must be non-negative)")
      warning := none }
  else if instructionCount = 0 then
    { valid := false
      count := 0
      error := some "Invalid transaction: must contain at least one instruction"
      warning := none }
  else if instructionCount > (MAX_INSTRUCTIONS : Int) then
    { valid := false
      count := instructionCount
      error := some ("Too many instructions: " ++ toString instructionCount ++
        " exceeds recommended maximum " ++ toString MAX_INSTRUCTIONS ++
        " for " ++ protocolName ++
        ". This may cause transaction size or computation limits to be exceeded.")
      warning := none }
  else if instructionCount > 10 then
    { valid := true
      count := instructionCount
      error := none
      warning := some ("Transaction has " ++ toString instructionCount ++
        " instructions, which is unusually high. " ++
        "Ensure this is necessary to avoid excessive transaction size.") }
  else
    { valid := true, count := instructionCount, error := none, warning := none }

/-! ## `src/shared/amounts.js` — amount codec -/

/-- Untyped JavaScript values, as far as the amount codec's `typeof` dispatch
distinguishes them: a (finite) number modelled as an exact rational, a string,
a bigint, a byte buffer, or anything else. -/
inductive JsValue where
  | num (q : ℚ)
  | str (s : String)
  | bigint (i : ℤ)
  | buf (bytes : List Nat)
  | other
deriving Repr, DecidableEq

/-- Source `typeof` of a modelled JavaScript value (`Buffer` is an object). -/
def JsValue.typeofName : JsValue → String
  | .num _ => "number"
  | .str _ => "string"
  | .bigint _ => "bigint"
  | .buf _ => "object"
  | .other => "object"

/-- Source `Number.MAX_SAFE_INTEGER` (`2^53 - 1`). -/
def MAX_SAFE_INTEGER : Nat := 9007199254740991

/-- The `MAX_SAFE_AMOUNTS` table of `src/shared/amounts.js` (lines 162-182):
each entry for `decimals = d` is the decimal literal writing out
`MAX_SAFE_INTEGER / 10^d` exactly (e.g. `9_007_199.254740991` at `d = 9`),
so the table is this function. -/
def maxSafeAmount (decimals : Nat) : ℚ :=
  (MAX_SAFE_INTEGER : ℚ) / 10 ^ decimals

/-- Source `String.prototype.padStart(n, c)`. -/
def padStart (s : String) (n : Nat) (c : Char) : String :=
  String.mk (List.replicate (n - s.length) c ++ s.data)

/-- Source `replace(/0+$/, '')`: drop trailing `'0'` characters. -/
def trimTrailingZeros (s : String) : String :=
  String.mk (s.data.reverse.dropWhile (fun c => c = '0')).reverse

/-- Source `safeRawToAmount` from `src/shared/amounts.js` (lines 242-291), taken on
the branch the claims quantify over: a non-negative integer raw amount
(`bigint` branch; the negative-value guards cannot fire on `Nat`, and
`BigInt(Math.pow(10, decimals))` is exactly `10 ^ decimals` for
`decimals ≤ 18`, every such power being an exactly-representable double). -/
def safeRawToAmount (rawAmount : Nat) (decimals : Nat) (tokenSymbol : String) :
    Except String String :=
  if decimals > 18 then
    .error ("Invalid decimals for " ++ tokenSymbol ++
      ": must be integer between 0 and 18, got " ++ toString decimals)
  else
    let divisor := 10 ^ decimals
    let wholePart := rawAmount / divisor
    let fractionalPart := rawAmount % divisor
    let fractionalStr := padStart (Nat.repr fractionalPart) decimals '0'
    let trimmedFractional := trimTrailingZeros fractionalStr
    if trimmedFractional = "" then
      .ok (Nat.repr wholePart)
    else
      .ok (Nat.repr wholePart ++ "." ++ trimmedFractional)

/-- Source `safeAmountToRaw` from `src/shared/amounts.js` (lines 192-233). The
`typeof amount !== 'number'` guard fires before any arithmetic, so string,
bigint and object inputs error regardless of content; number inputs are
finite rationals in the model (the `isNaN` / `isFinite` guards cannot fire),
and the final `Number.isSafeInteger(rawAmount)` guard is the integer bound
check on the floored product. -/
def safeAmountToRaw (amount : JsValue) (decimals : Nat) (tokenSymbol : String) :
    Except String ℤ :=
  match amount with
  | .num q =>
    if q < 0 then
      .error ("Invalid amount for " ++ tokenSymbol ++
        ": must be non-negative, got " ++ toString q.num)
    else if decimals > 18 then
      .error ("Invalid decimals for " ++ tokenSymbol ++
        ": must be integer between 0 and 18, got " ++ toString decimals)
    else if q > maxSafeAmount decimals then
      .error ("Amount overflow for " ++ tokenSymbol ++ ": amount exceeds " ++
        "maximum safe amount for " ++ toString decimals ++ " decimals. " ++
        "This would result in precision loss or incorrect calculations.")
    else
      let rawAmount : ℤ := ⌊q * 10 ^ decimals⌋
      if MAX_SAFE_INTEGER < rawAmount.natAbs then
        .error ("Integer overflow converting " ++ tokenSymbol ++
          " to raw units. Result exceeds MAX_SAFE_INTEGER.")
      else
        .ok rawAmount
  | v =>
    .error ("Invalid amount for " ++ tokenSymbol ++ ": must be a number, got "
      ++ v.typeofName)

/-! ## Instruction and transaction-message model

Addresses are their canonical Base58 text (`@solana/addresses`' `address()`
validates the text and is otherwise the identity; the claims never exercise
invalid addresses, so it is modelled as the identity on strings). -/

/-- Source `AccountRole` of `@solana/instructions`. -/
inductive AccountRole where
  | READONLY
  | WRITABLE
  | READONLY_SIGNER
  | WRITABLE_SIGNER
deriving Repr, DecidableEq

/-- One entry of an instruction's account list. -/
structure AccountMeta where
  address : String
  role : AccountRole
deriving Repr, DecidableEq

/-- An instruction: program address, ordered account list, byte payload. -/
structure Instruction where
  programAddress : String
  accounts : List AccountMeta
  data : List Nat
deriving Repr, DecidableEq

/-! ## `src/protocols/wallet/shared/tokens.js` — token registry -/

/-- One entry of the wallet token registry. -/
structure Token where
  symbol : String
  name : String
  decimals : Nat
  mint : Option String
  isNative : Bool
deriving Repr, DecidableEq

/-- The `TOKENS` table (as the list of its values, in declaration order). -/
def TOKENS : List Token :=
  [ { symbol := "SOL", name := "Solana", decimals := 9, mint := none,
      isNative := true },
    { symbol := "USDC", name := "USD Coin", decimals := 6,
      mint := some "EPjFWdd5AufqSSqeM2qN1xzybapC8G4wEGGkZwyTDt1v",
      isNative := false },
    { symbol := "USDT", name := "Tether USD", decimals := 6,
      mint := some "Es9vMFrzaCERmJfrF4H2FYD4KCoNkY11McCe8BenwNYB",
      isNative := false },
    { symbol := "BONK", name := "Bonk", decimals := 5,
      mint := some "DezXAZ8z7PnrnRJjz3wXBoRgixCa6xjnB7YaB1pPB263",
      isNative := false } ]

/-- Source `getToken(symbol)`: keyed lookup `TOKENS[symbol.toUpperCase()]`, throwing
on a miss. -/
def getToken (symbol : String) : Except String Token :=
  match TOKENS.find? (fun t => t.symbol = symbol.toUpper) with
  | some t => .ok t
  | none => .error ("Unknown token: " ++ symbol)

/-! ## `src/protocols/wallet/enclave/transfer.js` — transfer builder -/

/-- Program ids fixed at the top of `transfer.js`. -/
def SYSTEM_PROGRAM_ID : String := "11111111111111111111111111111111"

def TOKEN_PROGRAM_ID : String := "TokenkegQfeZyiNwAJbNbGKPFXCWuBvf9Ss623VQ5DA"

def MEMO_PROGRAM_ID : String := "MemoSq4gqABAXKb96qnH8TysNcWxMyWCqXgDLGmfcHr"

/-- JavaScript truthiness of an optional string (absent and `""` are falsy). -/
def jsTruthy : Option String → Bool
  | some s => s ≠ ""
  | none => false

/-- Source `buildSolTransferInstruction` (transfer.js lines 28-45): 12-byte payload,
u32 LE discriminator 2 then u64 LE lamports (`setBigUint64` stores the value
modulo `2^64`; here the value is a non-negative integer from
`safeAmountToRaw`). -/
def buildSolTransferInstruction (source dest : String) (lamports : ℤ) :
    Instruction :=
  { programAddress := SYSTEM_PROGRAM_ID
    accounts := [ { address := source, role := .WRITABLE_SIGNER },
                  { address := dest, role := .WRITABLE } ]
    data := leBytes 4 2 ++ leBytes 8 (lamports % 2 ^ 64).toNat }

/-- Source `buildTokenTransferInstruction` (transfer.js lines 50-68): 9-byte payload,
u8 discriminator 3 then u64 LE amount. -/
def buildTokenTransferInstruction (source dest owner : String) (amount : ℤ) :
    Instruction :=
  { programAddress := TOKEN_PROGRAM_ID
    accounts := [ { address := source, role := .WRITABLE },
                  { address := dest, role := .WRITABLE },
                  { address := owner, role := .READONLY_SIGNER } ]
    data := 3 :: leBytes 8 (amount % 2 ^ 64).toNat }

/-- Source `buildMemoInstruction` (transfer.js lines 73-82): the memo's UTF-8 bytes
(`TextEncoder().encode`), empty account list. -/
def buildMemoInstruction (memo : String) : Instruction :=
  { programAddress := MEMO_PROGRAM_ID
    accounts := []
    data := memo.toUTF8.toList.map (fun b => b.toNat) }

/-- Parameters of `buildTransferTransaction` (`params.amount` is an untyped
JavaScript value handed to `safeAmountToRaw`; the optional fields model
absent-or-supplied, with JavaScript truthiness applied where the source tests
them). -/
structure TransferParams where
  recipient : String
  amount : JsValue
  mint : Option String
  symbol : Option String
  memo : Option String
deriving Repr, DecidableEq

/-- Prepared context consumed by the transfer builder (lifetime is opaque to
every claim and omitted; the token-account fields are tested for truthiness
by the source). -/
structure TransferPrepared where
  senderTokenAccount : Option String
  recipientTokenAccount : Option String
deriving Repr, DecidableEq

/-- The transaction message assembled by a builder: fee payer plus the
instruction list in append order (`appendTransactionMessageInstruction` is
list append; `compileTransaction` / wire serialization are external library
code past the claims). -/
structure BuiltTransfer where
  feePayer : String
  instructions : List Instruction
deriving Repr, DecidableEq

/-- Source `buildTransferTransaction` from `transfer.js` (lines 100-186):
token-vs-native dispatch on `params.mint || params.symbol`, amount conversion
through `safeAmountToRaw` (re-raised with an `Amount conversion failed`
prefix), token-account presence check, then the transfer instruction and an
optional trailing memo instruction, in that order. -/
def buildTransferTransaction (params : TransferParams) (wallet : String)
    (prepared : TransferPrepared) : Except String BuiltTransfer := do
  let userPubkey := wallet
  let tokenBranch := jsTruthy params.mint || jsTruthy params.symbol
  let (amountRaw, _symbol) ←
    if tokenBranch then do
      let token ←
        if jsTruthy params.symbol then
          getToken (params.symbol.getD "")
        else
          match TOKENS.find? (fun t => t.mint.isSome ∧ t.mint = params.mint)
            with
          | some t => .ok t
          | none => .error ("Unknown token mint: " ++ (params.mint.getD ""))
      let raw ←
        match safeAmountToRaw params.amount token.decimals token.symbol with
        | .ok r => .ok r
        | .error e =>
            .error ("Amount conversion failed for " ++ token.symbol ++ ": "
              ++ e)
      if jsTruthy prepared.senderTokenAccount = false ||
          jsTruthy prepared.recipientTokenAccount = false then
        .error "Token accounts must be provided for SPL token transfers"
      else
        .ok (raw, token.symbol)
    else do
      let raw ←
        match safeAmountToRaw params.amount 9 "SOL" with
        | .ok r => .ok r
        | .error e =>
            .error ("Amount conversion failed for SOL: " ++ e)
      .ok (raw, "SOL")
  let transferInstruction :=
    if tokenBranch then
      buildTokenTransferInstruction (prepared.senderTokenAccount.getD "")
        (prepared.recipientTokenAccount.getD "") userPubkey amountRaw
    else
      buildSolTransferInstruction userPubkey params.recipient amountRaw
  let instructions :=
    if jsTruthy params.memo then
      [transferInstruction, buildMemoInstruction (params.memo.getD "")]
    else
      [transferInstruction]
  .ok { feePayer := userPubkey, instructions := instructions }

/-! ## `src/protocols/solend/shared/constants.js` -/

def SOLEND_PROGRAM_ID : String := "So1endDq2YkqhipRh3WViPa8hdiSpxWy6z3Z6tMCpAo"

def MAIN_POOL_MARKET : String := "4UpD2fh7xH3VP9QQaXtsS1YY3bxzWhtfpks7FatyKvdY"

def LENDING_MARKET_AUTHORITY : String :=
  "DdZR6zRFiUt4S5mg7AV1uKB2z1f1WzcNYCaTEEWPAuby"

def USDC_RESERVE : String := "BgxfHJDzm44T7XG68MYKx7YisTjZu73tVovyZSjJMpmw"

def USDC_LIQUIDITY_SUPPLY : String :=
  "8SheGtsopRUDzdiD6v6BR9a6bqZ9QwywYQY99Fp5meNf"

def CUSDC_MINT : String := "993dVFL2uXWYeoXuEBFXR4BijeXdTv4s6BzsCjJZuwqk"

def CUSDC_SUPPLY : String := "UtRy8gcEu9fCkDuUrU8EmC7Uc6FZy5NCwttzG7i6nkw"

def SOLEND_ACCOUNT_1 : String := "Gnt27xtC473ZT2Mw5u8wZ68Z3gULkSTb5DuxJy7eJotD"

def SOLEND_ACCOUNT_2 : String := "CZx29wKMUxaJDq6aLVQTdViPL754tTR64NAgQBUGxxHb"

/-- Source `INSTRUCTION.DEPOSIT_RESERVE_LIQUIDITY_AND_OBLIGATION_COLLATERAL`. -/
def DEPOSIT_RESERVE_LIQUIDITY_AND_OBLIGATION_COLLATERAL : Nat := 14

/-- Source `INSTRUCTION.WITHDRAW_OBLIGATION_COLLATERAL_AND_REDEEM_RESERVE_COLLATERAL`. -/
def WITHDRAW_OBLIGATION_COLLATERAL_AND_REDEEM_RESERVE_COLLATERAL : Nat := 15

/-! ## `src/protocols/solend/enclave/deposit.js` and `withdraw.js` -/

/-- Prepared context consumed by the Solend builders (the lifetime is opaque
to every claim and omitted). -/
structure SolendPrepared where
  userUsdcAta : String
  userCusdcAta : String
  obligationAccount : String
deriving Repr, DecidableEq

/-- A built Solend transaction: fee payer plus its single instruction. -/
structure BuiltSolend where
  feePayer : String
  instruction : Instruction
deriving Repr, DecidableEq

/-- Source `buildDepositTransaction` from `deposit.js` (lines 48-102), at an
integer-valued amount (the only case the claims quantify over; for such an
amount `BigInt(amount)` is exact and throws nothing). The function performs
no validation of `amount`: `setBigUint64` stores `amount mod 2^64`
little-endian into payload bytes 1-8 behind the 1-byte discriminator, and the
builder returns on every such input. -/
def buildDepositTransaction (amount : Nat) (wallet : String)
    (prepared : SolendPrepared) : BuiltSolend :=
  let userAddress := wallet
  let data := DEPOSIT_RESERVE_LIQUIDITY_AND_OBLIGATION_COLLATERAL ::
    leBytes 8 amount
  { feePayer := userAddress
    instruction :=
      { programAddress := SOLEND_PROGRAM_ID
        accounts :=
          [ { address := prepared.userUsdcAta, role := .WRITABLE },
            { address := prepared.userCusdcAta, role := .WRITABLE },
            { address := USDC_RESERVE, role := .WRITABLE },
            { address := USDC_LIQUIDITY_SUPPLY, role := .WRITABLE },
            { address := CUSDC_MINT, role := .WRITABLE },
            { address := MAIN_POOL_MARKET, role := .WRITABLE },
            { address := LENDING_MARKET_AUTHORITY, role := .READONLY },
            { address := CUSDC_SUPPLY, role := .WRITABLE },
            { address := prepared.obligationAccount, role := .WRITABLE },
            { address := userAddress, role := .READONLY_SIGNER },
            { address := SOLEND_ACCOUNT_1, role := .READONLY },
            { address := SOLEND_ACCOUNT_2, role := .READONLY },
            { address := userAddress, role := .READONLY_SIGNER },
            { address := TOKEN_PROGRAM_ID, role := .READONLY } ]
        data := data } }

/-- Source `buildWithdrawTransaction` from `withdraw.js` (lines 28-81), at an
integer-valued amount; like the deposit builder it validates nothing about
`amount` and returns on every such input. -/
def buildWithdrawTransaction (amount : Nat) (wallet : String)
    (prepared : SolendPrepared) : BuiltSolend :=
  let userAddress := wallet
  let data := WITHDRAW_OBLIGATION_COLLATERAL_AND_REDEEM_RESERVE_COLLATERAL ::
    leBytes 8 amount
  { feePayer := userAddress
    instruction :=
      { programAddress := SOLEND_PROGRAM_ID
        accounts :=
          [ { address := CUSDC_SUPPLY, role := .WRITABLE },
            { address := prepared.userCusdcAta, role := .WRITABLE },
            { address := USDC_RESERVE, role := .WRITABLE },
            { address := prepared.obligationAccount, role := .WRITABLE },
            { address := MAIN_POOL_MARKET, role := .WRITABLE },
            { address := LENDING_MARKET_AUTHORITY, role := .READONLY },
            { address := prepared.userUsdcAta, role := .WRITABLE },
            { address := CUSDC_MINT, role := .WRITABLE },
            { address := USDC_LIQUIDITY_SUPPLY, role := .WRITABLE },
            { address := userAddress, role := .READONLY_SIGNER },
            { address := userAddress, role := .READONLY_SIGNER },
            { address := TOKEN_PROGRAM_ID, role := .READONLY },
            { address := USDC_RESERVE, role := .READONLY } ]
        data := data } }

/-! ## `src/protocols/solend/context/parser.js` — reserve and market parsers -/

/-- Source `validateBufferBounds` (parser.js lines 11-31) on a byte list with
natural-number offset and length (the source's negative-offset and
negative-length guards cannot fire on naturals; the buffer-typed parameter
makes the `Buffer.isBuffer` guard vacuous here, the non-buffer case being
handled at each parser's entry). -/
def validateBufferBounds (data : List Nat) (off len : Nat)
    (fieldName : String) : Except String Unit :=
  if off + len > data.length then
    .error ("Buffer overflow reading " ++ fieldName ++ ": tried to read " ++
      toString len ++ " bytes at offset " ++ toString off ++ " (end: " ++
      toString (off + len) ++ ") but buffer length is " ++
      toString data.length)
  else
    .ok ()

/-- Source `safeReadUInt8` (parser.js lines 40-43). -/
def safeReadUInt8 (data : List Nat) (off : Nat) (fieldName : String) :
    Except String Nat := do
  _ ← validateBufferBounds data off 1 fieldName
  .ok (data.getD off 0)

/-- Source `safeSlice` (parser.js lines 53-56): `Buffer.slice(start, stop)` after a
bounds check for `(start, stop - start)`. -/
def safeSlice (data : List Nat) (start stop : Nat) (fieldName : String) :
    Except String (List Nat) := do
  _ ← validateBufferBounds data start (stop - start) fieldName
  .ok ((data.drop start).take (stop - start))

/-- Source `RESERVE_OFFSETS.MIN_SIZE`. -/
def RESERVE_MIN_SIZE : Nat := 619

/-- Source `LENDING_MARKET_OFFSETS.MIN_SIZE`. -/
def LENDING_MARKET_MIN_SIZE : Nat := 258

/-- Output of `parseReserveAccount`. -/
structure ReserveRecord where
  version : Nat
  liquiditySupplyPubkey : List Nat
  collateralMintPubkey : List Nat
  collateralSupplyPubkey : List Nat
deriving Repr, DecidableEq

/-- Source `parseReserveAccount` (parser.js lines 76-122): fail-loud minimum-size
check, then a bounds-checked uint8 and three bounds-checked 32-byte slices at
the `RESERVE_OFFSETS` layout. -/
def parseReserveAccount (data : List Nat) : Except String ReserveRecord := do
  if data.length < RESERVE_MIN_SIZE then
    .error ("Invalid reserve account data: expected at least " ++
      toString RESERVE_MIN_SIZE ++ " bytes, got " ++ toString data.length ++
      " bytes")
  else
    let version ← safeReadUInt8 data 0 "version"
    let liquiditySupplyPubkey ← safeSlice data 74 106 "liquiditySupplyPubkey"
    let collateralMintPubkey ← safeSlice data 221 253 "collateralMintPubkey"
    let collateralSupplyPubkey ←
      safeSlice data 253 285 "collateralSupplyPubkey"
    .ok { version, liquiditySupplyPubkey, collateralMintPubkey,
          collateralSupplyPubkey }

/-- Output of `parseLendingMarketAccount`. -/
structure LendingMarketRecord where
  version : Nat
  bumpSeed : Nat
  owner : List Nat
deriving Repr, DecidableEq

/-- Source `parseLendingMarketAccount` (parser.js lines 139-171). -/
def parseLendingMarketAccount (data : List Nat) :
    Except String LendingMarketRecord := do
  if data.length < LENDING_MARKET_MIN_SIZE then
    .error ("Invalid lending market account data: expected at least " ++
      toString LENDING_MARKET_MIN_SIZE ++ " bytes, got " ++
      toString data.length ++ " bytes")
  else
    let version ← safeReadUInt8 data 0 "version"
    let bumpSeed ← safeReadUInt8 data 1 "bumpSeed"
    let owner ← safeSlice data 2 34 "owner"
    .ok { version, bumpSeed, owner }

/-! ## `src/protocols/solend/query/obligation.js` — obligation parser -/

/-- The `OBLIGATION_OFFSETS` constants. -/
def DEPOSITS_LEN : Nat := 202

def DEPOSITS_START : Nat := 204

def DEPOSIT_SIZE : Nat := 112

def DEPOSIT_AMOUNT_OFFSET : Nat := 32

def MIN_SIZE_FOR_DEPOSITS_LEN : Nat := 204

def MAX_DEPOSITS : Nat := 10

/-- One parsed deposit entry. The source renders the `BigUInt64LE` value as
its decimal string (`depositedAmount.toString()`); decimal rendering being
injective, the model keeps the numeric value. -/
structure Deposit where
  depositedAmount : Nat
deriving Repr, DecidableEq

/-- Output of `parseObligation` (`totalDeposited` is likewise the numeric
value of the decimal string the source returns). -/
structure Obligation where
  deposits : List Deposit
  totalDeposited : Nat
deriving Repr, DecidableEq

/-- The empty result every fail-safe path of `parseObligation` returns
(`deposits: [], totalDeposited: '0'`). -/
def emptyObligation : Obligation := { deposits := [], totalDeposited := 0 }

/-- The deposit-reading loop of `parseObligation` (obligation.js lines
98-115), reading entries upward from index `i` with `k` iterations left: the
per-entry `isValidObligationBounds` re-check guards each 8-byte amount read
and `break`s (returning the entries so far) on failure. -/
def readDepositsFrom (data : List Nat) (k i : Nat) : List Deposit :=
  match k with
  | 0 => []
  | k + 1 =>
    let amountOffset := DEPOSITS_START + i * DEPOSIT_SIZE +
      DEPOSIT_AMOUNT_OFFSET
    if amountOffset + 8 > data.length then
      []
    else
      { depositedAmount := readBigUInt64LE data amountOffset } ::
        readDepositsFrom data k (i + 1)

/-- Source `parseObligation` (obligation.js lines 39-124) on a byte buffer. Every
failure path returns `emptyObligation` — the function never throws: too-short
buffer, declared count 0, count above `MAX_DEPOSITS`, or a buffer too small
for all declared entries. (The `isValidObligationBounds` re-check before
`readUInt16LE(202)` is subsumed by the 204-byte minimum and cannot fire.)
`totalDeposited` is the first entry's amount, or 0. -/
def parseObligation (data : List Nat) : Obligation :=
  if data.length < MIN_SIZE_FOR_DEPOSITS_LEN then
    emptyObligation
  else
    let depositsLen := readUInt16LE data DEPOSITS_LEN
    if depositsLen = 0 then
      emptyObligation
    else if depositsLen > MAX_DEPOSITS then
      emptyObligation
    else
      let requiredSize := DEPOSITS_START + depositsLen * DEPOSIT_SIZE
      if data.length < requiredSize then
        emptyObligation
      else
        let deposits := readDepositsFrom data depositsLen 0
        { deposits
          totalDeposited :=
            ((deposits.head?).map (fun d => d.depositedAmount)).getD 0 }

/-- Source `parseObligation` on an arbitrary JavaScript value: the
`!data || !Buffer.isBuffer(data)` entry guard returns the empty result for
every non-buffer input. -/
def parseObligationJs (v : JsValue) : Obligation :=
  match v with
  | .buf data => parseObligation data
  | _ => emptyObligation

/-! ## Helper lemmas -/

theorem strContains_of_data (s t : String) (x y : List Char)
    (h : s.data = x ++ t.data ++ y) : strContains s t := by
  rw [strContains, h]
  exact List.infix_append x t.data y

/-! ## Claim theorems -/

/-- C3: for every wire transaction (quantified over its decoded byte
sequence), `validateTransactionSize` reports valid exactly when the byte
length is at most 1232; above 1232 it reports invalid with an error message
containing both the actual size and the 1232 maximum; a valid transaction
larger than 1100 bytes carries a warning. -/
theorem validateTransactionSize_correct (wireBytes : List Nat) (pn : String) :
    ((validateTransactionSize wireBytes pn).valid =
      decide (wireBytes.length ≤ MAX_TRANSACTION_SIZE)) ∧
    (MAX_TRANSACTION_SIZE < wireBytes.length →
      ∃ e, (validateTransactionSize wireBytes pn).error = some e ∧
        strContains e (toString wireBytes.length) ∧
        strContains e (toString MAX_TRANSACTION_SIZE)) ∧
    (wireBytes.length ≤ MAX_TRANSACTION_SIZE ∧
        WARNING_THRESHOLD < wireBytes.length →
      (validateTransactionSize wireBytes pn).valid = true ∧
        (validateTransactionSize wireBytes pn).warning ≠ none) := by
  by_cases hbig : wireBytes.length > MAX_TRANSACTION_SIZE
  · have hn : ¬ wireBytes.length ≤ MAX_TRANSACTION_SIZE := by omega
    refine ⟨?_, fun _ => ?_, fun h => absurd h.1 hn⟩
    · simp [validateTransactionSize, hbig, hn]
    · refine ⟨"Transaction too large: " ++ toString wireBytes.length ++
          " bytes exceeds maximum " ++ toString MAX_TRANSACTION_SIZE ++
          " bytes for " ++ pn ++
          ". This transaction will be rejected by the Solana network. " ++
          "Consider reducing the number of instructions or accounts.",
        ?_, ?_, ?_⟩
      · simp [validateTransactionSize, hbig]
      · exact strContains_of_data _ _ ("Transaction too large: ").data
          ((" bytes exceeds maximum " : String) ++
            toString MAX_TRANSACTION_SIZE ++ " bytes for " ++ pn ++
            ". This transaction will be rejected by the Solana network. " ++
            "Consider reducing the number of instructions or accounts.").data
          (by simp [String.data_append])
      · exact strContains_of_data _ _
          (("Transaction too large: " : String) ++
            toString wireBytes.length ++ " bytes exceeds maximum ").data
          ((" bytes for " : String) ++ pn ++
            ". This transaction will be rejected by the Solana network. " ++
            "Consider reducing the number of instructions or accounts.").data
          (by simp [String.data_append])
  · by_cases hwarn : wireBytes.length > WARNING_THRESHOLD
    · refine ⟨?_, fun h => absurd h (by omega), fun _ => ?_⟩
      · simp [validateTransactionSize, hbig, hwarn]
        omega
      · constructor <;> simp [validateTransactionSize, hbig, hwarn]
    · refine ⟨?_, fun h => absurd h (by omega),
        fun h => absurd h.2 (by omega)⟩
      simp [validateTransactionSize, hbig, hwarn]
      omega

theorem validateTransactionSize_correct_witness :
    (validateTransactionSize (List.replicate 1232 0) "transaction").valid =
      true ∧
    (validateTransactionSize (List.replicate 1233 0) "transaction").valid =
      false ∧
    (∃ e,
      (validateTransactionSize (List.replicate 1233 0) "transaction").error =
        some e ∧ strContains e "1233" ∧ strContains e "1232") ∧
    (validateTransactionSize (List.replicate 1101 0) "transaction").warning ≠
      none := by
  have h32 := validateTransactionSize_correct (List.replicate 1232 0)
    "transaction"
  have h33 := validateTransactionSize_correct (List.replicate 1233 0)
    "transaction"
  have h01 := validateTransactionSize_correct (List.replicate 1101 0)
    "transaction"
  have e32 : (List.replicate 1232 (0 : Nat)).length = 1232 :=
    List.length_replicate 1232 0
  have e33 : (List.replicate 1233 (0 : Nat)).length = 1233 :=
    List.length_replicate 1233 0
  have e01 : (List.replicate 1101 (0 : Nat)).length = 1101 :=
    List.length_replicate 1101 0
  refine ⟨?_, ?_, ?_, ?_⟩
  · rw [h32.1, e32]; rfl
  · rw [h33.1, e33]; rfl
  · obtain ⟨e, he, hc1, hc2⟩ := h33.2.1
      (by rw [e33]; simp [MAX_TRANSACTION_SIZE])
    rw [e33] at hc1
    exact ⟨e, he, hc1, hc2⟩
  · exact (h01.2.2
      ⟨by rw [e01]; simp [MAX_TRANSACTION_SIZE],
       by rw [e01]; simp [WARNING_THRESHOLD]⟩).2

/-- C4: `validateInstructionCount` rejects 0, accepts 1..64, rejects each
count above 64 with an error naming the offending count and the limit 64,
and marks an accepted count above 10 with a non-fatal warning. -/
theorem validateInstructionCount_correct (c : Int) (pn : String) :
    ((validateInstructionCount 0 pn).valid = false ∧
      (validateInstructionCount 0 pn).error ≠ none) ∧
    (1 ≤ c ∧ c ≤ 64 → (validateInstructionCount c pn).valid = true) ∧
    (64 < c →
      (validateInstructionCount c pn).valid = false ∧
      ∃ e, (validateInstructionCount c pn).error = some e ∧
        strContains e (toString c) ∧
        strContains e (toString MAX_INSTRUCTIONS)) ∧
    (10 < c ∧ c ≤ 64 →
      (validateInstructionCount c pn).valid = true ∧
        (validateInstructionCount c pn).warning ≠ none) := by
  refine ⟨⟨by simp [validateInstructionCount], by simp [validateInstructionCount]⟩,
    fun h => ?_, fun h => ⟨?_, ?_⟩, fun h => ⟨?_, ?_⟩⟩
  · have h0 : ¬ c < 0 := by omega
    have h1 : ¬ c = 0 := by omega
    have h2 : ¬ c > (MAX_INSTRUCTIONS : Int) := by
      simp only [MAX_INSTRUCTIONS]; omega
    by_cases h3 : c > 10 <;>
      simp [validateInstructionCount, h0, h1, h2, h3]
  · have h0 : ¬ c < 0 := by omega
    have h1 : ¬ c = 0 := by omega
    have h2 : c > (MAX_INSTRUCTIONS : Int) := by
      simp only [MAX_INSTRUCTIONS]; omega
    simp [validateInstructionCount, h0, h1, h2]
  · have h0 : ¬ c < 0 := by omega
    have h1 : ¬ c = 0 := by omega
    have h2 : c > (MAX_INSTRUCTIONS : Int) := by
      simp only [MAX_INSTRUCTIONS]; omega
    refine ⟨"Too many instructions: " ++ toString c ++
        " exceeds recommended maximum " ++ toString MAX_INSTRUCTIONS ++
        " for " ++ pn ++
        ". This may cause transaction size or computation limits to be exceeded.",
      by simp [validateInstructionCount, h0, h1, h2], ?_, ?_⟩
    · exact strContains_of_data _ _ ("Too many instructions: ").data
        ((" exceeds recommended maximum " : String) ++
          toString MAX_INSTRUCTIONS ++ " for " ++ pn ++
          ". This may cause transaction size or computation limits to be exceeded.").data
        (by simp [String.data_append])
    · exact strContains_of_data _ _
        (("Too many instructions: " : String) ++ toString c ++
          " exceeds recommended maximum ").data
        ((" for " : String) ++ pn ++
          ". This may cause transaction size or computation limits to be exceeded.").data
        (by simp [String.data_append])
  · have h0 : ¬ c < 0 := by omega
    have h1 : ¬ c = 0 := by omega
    have h2 : ¬ c > (MAX_INSTRUCTIONS : Int) := by
      simp only [MAX_INSTRUCTIONS]; omega
    have h3 : c > 10 := by omega
    simp [validateInstructionCount, h0, h1, h2, h3]
  · have h0 : ¬ c < 0 := by omega
    have h1 : ¬ c = 0 := by omega
    have h2 : ¬ c > (MAX_INSTRUCTIONS : Int) := by
      simp only [MAX_INSTRUCTIONS]; omega
    have h3 : c > 10 := by omega
    simp [validateInstructionCount, h0, h1, h2, h3]

theorem validateInstructionCount_correct_witness :
    (validateInstructionCount 0 "transaction").valid = false ∧
    (validateInstructionCount 64 "transaction").valid = true ∧
    (validateInstructionCount 65 "transaction").valid = false ∧
    (∃ e, (validateInstructionCount 65 "transaction").error = some e ∧
      strContains e "65" ∧ strContains e "64") ∧
    (validateInstructionCount 11 "transaction").warning ≠ none := by
  have h := validateInstructionCount_correct 65 "transaction"
  have h64 := validateInstructionCount_correct 64 "transaction"
  have h11 := validateInstructionCount_correct 11 "transaction"
  refine ⟨h.1.1, h64.2.1 (by omega), (h.2.2.1 (by omega)).1, ?_,
    (h11.2.2.2 (by omega)).2⟩
  have := (h.2.2.1 (by omega)).2
  simpa [MAX_INSTRUCTIONS] using this

/-- C5 counterexample: the obligation parser does not raise on a buffer one
byte short of its minimum size — `parseObligation` (a total function: every
path of the source returns) yields the empty result on a 203-byte buffer,
where the claim demands that parsing a `MIN_SIZE - 1` buffer always raises
for every record kind. -/
theorem parseObligation_short_no_raise :
    parseObligation (List.replicate 203 0) = emptyObligation := by
  have h : (List.replicate 203 (0 : Nat)).length = 203 :=
    List.length_replicate 203 0
  simp [parseObligation, h, MIN_SIZE_FOR_DEPOSITS_LEN]

/-- C5 (amended): the reserve and lending-market parsers raise on a buffer of
length `MIN_SIZE - 1` and parse a zero-filled buffer of length exactly
`MIN_SIZE` into all-zero fields; the obligation parser instead returns the
empty result without raising below its minimum size, and yields zero deposits
on a zero-filled minimum-size buffer. -/
theorem parser_min_size_behavior :
    (∀ data : List Nat, data.length = RESERVE_MIN_SIZE - 1 →
      ∃ e, parseReserveAccount data = .error e) ∧
    (∀ data : List Nat, data.length = LENDING_MARKET_MIN_SIZE - 1 →
      ∃ e, parseLendingMarketAccount data = .error e) ∧
    (parseReserveAccount (List.replicate RESERVE_MIN_SIZE 0) =
      .ok { version := 0
            liquiditySupplyPubkey := List.replicate 32 0
            collateralMintPubkey := List.replicate 32 0
            collateralSupplyPubkey := List.replicate 32 0 }) ∧
    (parseLendingMarketAccount (List.replicate LENDING_MARKET_MIN_SIZE 0) =
      .ok { version := 0, bumpSeed := 0, owner := List.replicate 32 0 }) ∧
    (∀ data : List Nat, data.length = MIN_SIZE_FOR_DEPOSITS_LEN - 1 →
      parseObligation data = emptyObligation) ∧
    (parseObligation (List.replicate MIN_SIZE_FOR_DEPOSITS_LEN 0) =
      emptyObligation) := by
  refine ⟨?_, ?_, ?_, ?_, ?_, ?_⟩
  · intro data h
    have hlt : data.length < RESERVE_MIN_SIZE := by
      rw [h]; simp [RESERVE_MIN_SIZE]
    exact ⟨"Invalid reserve account data: expected at least " ++
      toString RESERVE_MIN_SIZE ++ " bytes, got " ++ toString data.length ++
      " bytes", by simp [parseReserveAccount, hlt]⟩
  · intro data h
    have hlt : data.length < LENDING_MARKET_MIN_SIZE := by
      rw [h]; simp [LENDING_MARKET_MIN_SIZE]
    exact ⟨"Invalid lending market account data: expected at least " ++
      toString LENDING_MARKET_MIN_SIZE ++ " bytes, got " ++
      toString data.length ++ " bytes",
      by simp [parseLendingMarketAccount, hlt]⟩
  · have hlen : (List.replicate RESERVE_MIN_SIZE (0 : Nat)).length =
        RESERVE_MIN_SIZE := List.length_replicate _ 0
    simp [parseReserveAccount, safeReadUInt8, safeSlice,
      validateBufferBounds, hlen, RESERVE_MIN_SIZE, List.drop_replicate,
      List.take_replicate]
    rfl
  · have hlen : (List.replicate LENDING_MARKET_MIN_SIZE (0 : Nat)).length =
        LENDING_MARKET_MIN_SIZE := List.length_replicate _ 0
    simp [parseLendingMarketAccount, safeReadUInt8, safeSlice,
      validateBufferBounds, hlen, LENDING_MARKET_MIN_SIZE,
      List.drop_replicate, List.take_replicate]
    rfl
  · intro data h
    have hlt : data.length < MIN_SIZE_FOR_DEPOSITS_LEN := by
      rw [h]; simp [MIN_SIZE_FOR_DEPOSITS_LEN]
    simp [parseObligation, hlt]
  · have hlen : (List.replicate MIN_SIZE_FOR_DEPOSITS_LEN (0 : Nat)).length =
        MIN_SIZE_FOR_DEPOSITS_LEN := List.length_replicate _ 0
    have hread : readUInt16LE (List.replicate MIN_SIZE_FOR_DEPOSITS_LEN 0)
        DEPOSITS_LEN = 0 := by
      simp [readUInt16LE, MIN_SIZE_FOR_DEPOSITS_LEN, DEPOSITS_LEN]
    simp [parseObligation, hlen, hread]

theorem parser_min_size_behavior_witness :
    (∃ e, parseReserveAccount (List.replicate 618 0) = .error e) ∧
    (∃ e, parseLendingMarketAccount (List.replicate 257 0) = .error e) ∧
    parseObligation (List.replicate 203 1) = emptyObligation := by
  have h := parser_min_size_behavior
  exact ⟨h.1 (List.replicate 618 0) (List.length_replicate 618 0),
    h.2.1 (List.replicate 257 0) (List.length_replicate 257 0),
    h.2.2.2.2.1 (List.replicate 203 1) (List.length_replicate 203 1)⟩

/-- When the buffer holds all `i + k` declared entries, the deposit loop's
per-entry re-check never `break`s: reading `k` entries from index `i` yields
exactly the entries at offsets `204 + j*112 + 32`. -/
theorem readDepositsFrom_complete (data : List Nat) (k : Nat) :
    ∀ i : Nat, DEPOSITS_START + (i + k) * DEPOSIT_SIZE ≤ data.length →
    readDepositsFrom data k i = (List.range' i k).map (fun j =>
      { depositedAmount := readBigUInt64LE data
          (DEPOSITS_START + j * DEPOSIT_SIZE + DEPOSIT_AMOUNT_OFFSET) }) := by
  induction k with
  | zero => intro i _; simp [readDepositsFrom]
  | succ k ih =>
      intro i h
      have hb : ¬ (DEPOSITS_START + i * DEPOSIT_SIZE + DEPOSIT_AMOUNT_OFFSET
          + 8 > data.length) := by
        simp only [DEPOSITS_START, DEPOSIT_SIZE, DEPOSIT_AMOUNT_OFFSET] at *
        omega
      have h' : DEPOSITS_START + ((i + 1) + k) * DEPOSIT_SIZE ≤
          data.length := by
        have : (i + 1) + k = i + (k + 1) := by omega
        rw [this]; exact h
      rw [readDepositsFrom, if_neg hb, List.range'_succ, List.map_cons,
        ih (i + 1) h']

/-- C6: for every obligation buffer of at least 204 bytes, with `c` the
uint16 LE deposit count at offset 202: if `c` exceeds the ceiling 10 or the
buffer is shorter than `204 + c*112`, `parseObligation` returns exactly zero
deposit entries (never a partial prefix) and, being a total function, does
not raise; otherwise it returns exactly `c` entries whose amounts are the LE
u64 values at offsets `204 + i*112 + 32`. -/
theorem parseObligation_deposits_correct (data : List Nat)
    (hlen : MIN_SIZE_FOR_DEPOSITS_LEN ≤ data.length) :
    ((MAX_DEPOSITS < readUInt16LE data DEPOSITS_LEN ∨
        data.length < DEPOSITS_START +
          readUInt16LE data DEPOSITS_LEN * DEPOSIT_SIZE) →
      (parseObligation data).deposits = []) ∧
    (readUInt16LE data DEPOSITS_LEN ≤ MAX_DEPOSITS ∧
        DEPOSITS_START + readUInt16LE data DEPOSITS_LEN * DEPOSIT_SIZE ≤
          data.length →
      (parseObligation data).deposits.length =
        readUInt16LE data DEPOSITS_LEN ∧
      ∀ i : Nat, i < readUInt16LE data DEPOSITS_LEN →
        (parseObligation data).deposits[i]? = some
          { depositedAmount := readBigUInt64LE data
              (DEPOSITS_START + i * DEPOSIT_SIZE + DEPOSIT_AMOUNT_OFFSET) }) := by
  have hnot : ¬ data.length < MIN_SIZE_FOR_DEPOSITS_LEN := by omega
  set c := readUInt16LE data DEPOSITS_LEN with hc
  constructor
  · intro hbad
    rcases eq_or_ne c 0 with h0 | h0
    · simp [parseObligation, hnot, ← hc, h0, emptyObligation]
    · rcases hbad with hgt | hshort
      · simp [parseObligation, hnot, ← hc, h0, hgt, emptyObligation]
      · by_cases hgt : c > MAX_DEPOSITS
        · simp [parseObligation, hnot, ← hc, h0, hgt, emptyObligation]
        · simp [parseObligation, hnot, ← hc, h0, hgt, hshort,
            emptyObligation]
  · intro ⟨hle, hfit⟩
    rcases eq_or_ne c 0 with h0 | h0
    · simp [parseObligation, hnot, ← hc, h0, emptyObligation]
    · have hgt : ¬ c > MAX_DEPOSITS := by omega
      have hshort : ¬ data.length < DEPOSITS_START + c * DEPOSIT_SIZE := by
        omega
      have hcomp := readDepositsFrom_complete data c 0 (by simpa using hfit)
      have hres : (parseObligation data).deposits =
          (List.range' 0 c).map (fun j =>
            { depositedAmount := readBigUInt64LE data
                (DEPOSITS_START + j * DEPOSIT_SIZE +
                  DEPOSIT_AMOUNT_OFFSET) }) := by
        simp [parseObligation, hnot, ← hc, h0, hgt, hshort, hcomp]
      rw [hres]
      constructor
      · simp [List.length_range']
      · intro i hi
        rw [List.getElem?_map]
        have : (List.range' 0 c)[i]? = some i := by
          rw [List.getElem?_range' 0]
          · simp
          · exact hi
        rw [this]
        simp

/-- A 316-byte obligation buffer declaring one deposit entry of amount
123456 (count 1 at offset 202, amount LE at offset 236). -/
def exObligationBuf : List Nat :=
  List.replicate 202 0 ++ [1, 0] ++
    (List.replicate 32 0 ++ leBytes 8 123456 ++ List.replicate 72 0)

theorem parseObligation_deposits_correct_witness :
    (parseObligation exObligationBuf).deposits.length = 1 ∧
    (parseObligation exObligationBuf).deposits[0]? =
      some { depositedAmount := readBigUInt64LE exObligationBuf 236 } := by
  have h := parseObligation_deposits_correct exObligationBuf (by decide)
  have hc : readUInt16LE exObligationBuf DEPOSITS_LEN = 1 := by decide
  have h2 := h.2 (by rw [hc]; exact ⟨by decide, by decide⟩)
  obtain ⟨hlen1, hget⟩ := h2
  rw [hc] at hlen1
  have hg := hget 0 (by rw [hc]; decide)
  have hoff : DEPOSITS_START + 0 * DEPOSIT_SIZE + DEPOSIT_AMOUNT_OFFSET =
      236 := by decide
  rw [hoff] at hg
  exact ⟨hlen1, hg⟩

/-- In every branch of `parseObligation`, `totalDeposited` is the first
deposit entry's amount, or 0 when there is none. -/
theorem parseObligation_total_eq (data : List Nat) :
    (parseObligation data).totalDeposited =
      (((parseObligation data).deposits.head?).map
        (fun d => d.depositedAmount)).getD 0 := by
  by_cases h1 : data.length < MIN_SIZE_FOR_DEPOSITS_LEN
  · simp [parseObligation, h1, emptyObligation]
  · by_cases h2 : readUInt16LE data DEPOSITS_LEN = 0
    · simp [parseObligation, h1, h2, emptyObligation]
    · by_cases h3 : readUInt16LE data DEPOSITS_LEN > MAX_DEPOSITS
      · simp [parseObligation, h1, h2, h3, emptyObligation]
      · by_cases h4 : data.length <
            DEPOSITS_START + readUInt16LE data DEPOSITS_LEN * DEPOSIT_SIZE
        · simp [parseObligation, h1, h2, h3, h4, emptyObligation]
        · simp [parseObligation, h1, h2, h3, h4]

/-- C9: `totalDeposited` is the first entry's amount only; with at least two
entries of non-zero amount it is strictly less than the sum of all deposited
amounts. -/
theorem parseObligation_totalDeposited_first_only (data : List Nat)
    (d0 : Deposit)
    (hhead : (parseObligation data).deposits.head? = some d0) :
    (parseObligation data).totalDeposited = d0.depositedAmount ∧
    (2 ≤ ((parseObligation data).deposits.filter
        (fun d => d.depositedAmount != 0)).length →
      (parseObligation data).totalDeposited <
        ((parseObligation data).deposits.map
          (fun d => d.depositedAmount)).sum) := by
  have htot := parseObligation_total_eq data
  rw [hhead] at htot
  simp at htot
  refine ⟨htot, ?_⟩
  intro h2
  obtain ⟨t, ht⟩ : ∃ t, (parseObligation data).deposits = d0 :: t := by
    cases hd : (parseObligation data).deposits with
    | nil => rw [hd] at hhead; simp at hhead
    | cons a t =>
        rw [hd] at hhead
        simp only [List.head?_cons, Option.some_inj] at hhead
        exact ⟨t, by rw [hhead]⟩
  rw [ht] at h2 ⊢
  have hx : ∃ x ∈ t, x.depositedAmount ≠ 0 := by
    have h1 : 1 ≤ (t.filter (fun d => d.depositedAmount != 0)).length := by
      rw [List.filter_cons] at h2
      by_cases hz : (d0.depositedAmount != 0) = true
      · rw [if_pos hz] at h2
        simp only [List.length_cons] at h2
        omega
      · rw [if_neg hz] at h2
        omega
    have hne : t.filter (fun d => d.depositedAmount != 0) ≠ [] := by
      intro hnil
      rw [hnil] at h1
      simp at h1
    obtain ⟨x, hxmem⟩ := List.exists_mem_of_ne_nil _ hne
    have := List.mem_filter.mp hxmem
    exact ⟨x, this.1, by simpa using this.2⟩
  obtain ⟨x, hxmem, hxne⟩ := hx
  have hle : x.depositedAmount ≤
      (t.map (fun d => d.depositedAmount)).sum :=
    List.single_le_sum (fun _ _ => Nat.zero_le _) _
      (List.mem_map_of_mem _ hxmem)
  rw [htot]
  simp only [List.map_cons, List.sum_cons]
  omega

/-- A 428-byte obligation buffer declaring two deposit entries with non-zero
amounts 5 and 7. -/
def exObligationBuf2 : List Nat :=
  List.replicate 202 0 ++ [2, 0] ++
    (List.replicate 32 0 ++ leBytes 8 5 ++ List.replicate 72 0) ++
    (List.replicate 32 0 ++ leBytes 8 7 ++ List.replicate 72 0)

theorem parseObligation_totalDeposited_first_only_witness :
    (parseObligation exObligationBuf2).totalDeposited = 5 ∧
    (parseObligation exObligationBuf2).totalDeposited <
      ((parseObligation exObligationBuf2).deposits.map
        (fun d => d.depositedAmount)).sum := by
  have h := parseObligation_totalDeposited_first_only exObligationBuf2
    { depositedAmount := 5 } (by decide)
  exact ⟨h.1, h.2 (by decide)⟩

/-- C10: `parseObligation` is total over arbitrary JavaScript inputs — the
embedding is a total function because every path of the source returns — and
returns the empty result (`deposits: [], totalDeposited: '0'`) for every
non-buffer input and every buffer shorter than 204 bytes. -/
theorem parseObligationJs_total_failsafe (v : JsValue) :
    (∀ data : List Nat, v = .buf data →
      data.length < MIN_SIZE_FOR_DEPOSITS_LEN →
      parseObligationJs v = emptyObligation) ∧
    ((∀ data : List Nat, v ≠ .buf data) →
      parseObligationJs v = emptyObligation) := by
  cases v with
  | buf data =>
      refine ⟨?_, fun h => absurd rfl (h data)⟩
      intro data' heq hlt
      cases heq
      simp [parseObligationJs, parseObligation, hlt]
  | num q => exact ⟨(fun _ h => nomatch h), fun _ => rfl⟩
  | str s => exact ⟨(fun _ h => nomatch h), fun _ => rfl⟩
  | bigint i => exact ⟨(fun _ h => nomatch h), fun _ => rfl⟩
  | other => exact ⟨(fun _ h => nomatch h), fun _ => rfl⟩

theorem parseObligationJs_total_failsafe_witness :
    parseObligationJs (.buf (List.replicate 10 0)) = emptyObligation ∧
    parseObligationJs (.str "not a buffer") = emptyObligation := by
  refine ⟨?_, ?_⟩
  · exact (parseObligationJs_total_failsafe (.buf (List.replicate 10 0))).1
      (List.replicate 10 0) rfl (by decide)
  · exact (parseObligationJs_total_failsafe (.str "not a buffer")).2
      (fun _ h => by cases h)

/-- C1: for every deposit built with raw amount `a < 2^64`, the payload is
exactly 9 bytes — byte 0 the discriminator 14, bytes 1-8 the LE u64 encoding
of `a` — and the account list is exactly the fixed 14-entry sequence, with
the user's signer address at positions 9 and 12 and nowhere else as a
signer. -/
theorem buildDepositTransaction_shape (a : Nat) (wallet : String)
    (prep : SolendPrepared) (ha : a < 2 ^ 64) :
    ((buildDepositTransaction a wallet prep).instruction.data.length = 9) ∧
    ((buildDepositTransaction a wallet prep).instruction.data.headD 0 =
      DEPOSIT_RESERVE_LIQUIDITY_AND_OBLIGATION_COLLATERAL) ∧
    (leValue
      ((buildDepositTransaction a wallet prep).instruction.data.drop 1) =
      a) ∧
    ((buildDepositTransaction a wallet prep).instruction.accounts =
      [ { address := prep.userUsdcAta, role := .WRITABLE },
        { address := prep.userCusdcAta, role := .WRITABLE },
        { address := USDC_RESERVE, role := .WRITABLE },
        { address := USDC_LIQUIDITY_SUPPLY, role := .WRITABLE },
        { address := CUSDC_MINT, role := .WRITABLE },
        { address := MAIN_POOL_MARKET, role := .WRITABLE },
        { address := LENDING_MARKET_AUTHORITY, role := .READONLY },
        { address := CUSDC_SUPPLY, role := .WRITABLE },
        { address := prep.obligationAccount, role := .WRITABLE },
        { address := wallet, role := .READONLY_SIGNER },
        { address := SOLEND_ACCOUNT_1, role := .READONLY },
        { address := SOLEND_ACCOUNT_2, role := .READONLY },
        { address := wallet, role := .READONLY_SIGNER },
        { address := TOKEN_PROGRAM_ID, role := .READONLY } ]) ∧
    ((buildDepositTransaction a wallet prep).instruction.accounts.length =
      14) ∧
    ((buildDepositTransaction a wallet prep).instruction.accounts[9]? =
      some { address := wallet, role := .READONLY_SIGNER }) ∧
    ((buildDepositTransaction a wallet prep).instruction.accounts[12]? =
      some { address := wallet, role := .READONLY_SIGNER }) ∧
    ((buildDepositTransaction a wallet prep).instruction.accounts.countP
      (fun m => decide (m.address = wallet ∧ m.role = .READONLY_SIGNER)) =
      2) := by
  refine ⟨?_, rfl, ?_, rfl, rfl, rfl, rfl, ?_⟩
  · simp [buildDepositTransaction, leBytes_length]
  · have := leValue_leBytes 8 a
    have h8 : (256 : Nat) ^ 8 = 2 ^ 64 := by norm_num
    simp only [buildDepositTransaction, List.drop_succ_cons, List.drop_zero]
    rw [this, h8, Nat.mod_eq_of_lt ha]
  · simp [buildDepositTransaction, List.countP_cons]

theorem buildDepositTransaction_shape_witness :
    leValue ((buildDepositTransaction 1000000 "UserWallet111"
      { userUsdcAta := "AtaU", userCusdcAta := "AtaC",
        obligationAccount := "Obl" }).instruction.data.drop 1) = 1000000 ∧
    (buildDepositTransaction 1000000 "UserWallet111"
      { userUsdcAta := "AtaU", userCusdcAta := "AtaC",
        obligationAccount := "Obl" }).instruction.data.headD 0 = 14 ∧
    (buildDepositTransaction 1000000 "UserWallet111"
      { userUsdcAta := "AtaU", userCusdcAta := "AtaC",
        obligationAccount := "Obl" }).instruction.accounts[9]? =
      some { address := "UserWallet111", role := .READONLY_SIGNER } := by
  have h := buildDepositTransaction_shape 1000000 "UserWallet111"
    { userUsdcAta := "AtaU", userCusdcAta := "AtaC",
      obligationAccount := "Obl" } (by norm_num)
  exact ⟨h.2.2.1, h.2.1, h.2.2.2.2.2.2.1⟩

/-- Every successful `safeAmountToRaw` result is a non-negative safe integer:
the negative guard and the final `Number.isSafeInteger` guard bound it. -/
theorem safeAmountToRaw_ok_bounds (v : JsValue) (d : Nat) (sym : String)
    (r : ℤ) (h : safeAmountToRaw v d sym = .ok r) :
    0 ≤ r ∧ r.natAbs ≤ MAX_SAFE_INTEGER := by
  cases v with
  | num q =>
      simp only [safeAmountToRaw] at h
      split_ifs at h with h1 h2 h3 h4
      have hr : (⌊q * 10 ^ d⌋ : ℤ) = r := by simpa using h
      constructor
      · rw [← hr]
        apply Int.floor_nonneg.mpr
        have hq : (0 : ℚ) ≤ q := not_lt.mp h1
        positivity
      · rw [← hr]
        omega
  | str s => exact Except.noConfusion h
  | bigint i => exact Except.noConfusion h
  | buf b => exact Except.noConfusion h
  | other => exact Except.noConfusion h

/-- Inversion of a successful `buildTransferTransaction`: the result's fee
payer is the wallet and its instruction list is the branch-selected transfer
instruction carrying a non-negative safe-integer raw amount, followed by the
memo instruction exactly when the memo is truthy. -/
theorem buildTransferTransaction_ok_shape (params : TransferParams)
    (wallet : String) (prep : TransferPrepared) (res : BuiltTransfer)
    (h : buildTransferTransaction params wallet prep = .ok res) :
    ∃ r : ℤ, 0 ≤ r ∧ r.natAbs ≤ MAX_SAFE_INTEGER ∧
      res.feePayer = wallet ∧
      res.instructions =
        (if jsTruthy params.mint || jsTruthy params.symbol then
          buildTokenTransferInstruction (prep.senderTokenAccount.getD "")
            (prep.recipientTokenAccount.getD "") wallet r
        else
          buildSolTransferInstruction wallet params.recipient r) ::
        (if jsTruthy params.memo then
          [buildMemoInstruction (params.memo.getD "")]
        else
          []) := by
  by_cases htb : (jsTruthy params.mint || jsTruthy params.symbol) = true
  · simp only [buildTransferTransaction, htb, if_true, bind, Except.bind] at h
    by_cases hsym : jsTruthy params.symbol = true
    · rw [if_pos hsym] at h
      rcases hgt : getToken (params.symbol.getD "") with e | token
      · rw [hgt] at h
        exact Except.noConfusion h
      · rw [hgt] at h
        dsimp only at h
        rcases hsar : safeAmountToRaw params.amount token.decimals
            token.symbol with e | r
        · rw [hsar] at h
          exact Except.noConfusion h
        · rw [hsar] at h
          dsimp only at h
          by_cases hacct : (jsTruthy prep.senderTokenAccount = false ||
              jsTruthy prep.recipientTokenAccount = false) = true
          · rw [if_pos hacct] at h
            exact Except.noConfusion h
          · rw [if_neg hacct] at h
            simp only [Except.ok.injEq] at h
            obtain ⟨hb1, hb2⟩ := safeAmountToRaw_ok_bounds _ _ _ _ hsar
            refine ⟨r, hb1, hb2, ?_, ?_⟩
            · rw [← h]
            · rw [← h]
              simp only [htb, if_true]
              by_cases hm : jsTruthy params.memo = true
              · simp [hm]
              · simp [eq_false_of_ne_true hm]
    · rw [if_neg hsym] at h
      rcases hft : TOKENS.find? (fun t => t.mint.isSome ∧ t.mint =
          params.mint) with _ | token
      · rw [hft] at h
        exact Except.noConfusion h
      · rw [hft] at h
        dsimp only at h
        rcases hsar : safeAmountToRaw params.amount token.decimals
            token.symbol with e | r
        · rw [hsar] at h
          exact Except.noConfusion h
        · rw [hsar] at h
          dsimp only at h
          by_cases hacct : (jsTruthy prep.senderTokenAccount = false ||
              jsTruthy prep.recipientTokenAccount = false) = true
          · rw [if_pos hacct] at h
            exact Except.noConfusion h
          · rw [if_neg hacct] at h
            simp only [Except.ok.injEq] at h
            obtain ⟨hb1, hb2⟩ := safeAmountToRaw_ok_bounds _ _ _ _ hsar
            refine ⟨r, hb1, hb2, ?_, ?_⟩
            · rw [← h]
            · rw [← h]
              simp only [htb, if_true]
              by_cases hm : jsTruthy params.memo = true
              · simp [hm]
              · simp [eq_false_of_ne_true hm]
  · have htb' : (jsTruthy params.mint || jsTruthy params.symbol) = false :=
      eq_false_of_ne_true htb
    simp only [buildTransferTransaction, htb', Bool.false_eq_true, if_false,
      bind, Except.bind] at h
    rcases hsar : safeAmountToRaw params.amount 9 "SOL" with e | r
    · rw [hsar] at h
      exact Except.noConfusion h
    · rw [hsar] at h
      dsimp only at h
      simp only [Except.ok.injEq] at h
      obtain ⟨hb1, hb2⟩ := safeAmountToRaw_ok_bounds _ _ _ _ hsar
      refine ⟨r, hb1, hb2, ?_, ?_⟩
      · rw [← h]
      · rw [← h]
        simp only [htb', Bool.false_eq_true, if_false]
        by_cases hm : jsTruthy params.memo = true
        · simp [hm]
        · simp [eq_false_of_ne_true hm]

/-- A non-negative safe-integer amount survives the `mod 2^64` of
`setBigUint64` and decodes back from its 8 little-endian payload bytes. -/
theorem leValue_leBytes8_int (r : ℤ) (h0 : 0 ≤ r)
    (h1 : r.natAbs ≤ MAX_SAFE_INTEGER) :
    leValue (leBytes 8 (r % 2 ^ 64).toNat) = r.toNat := by
  simp only [MAX_SAFE_INTEGER] at h1
  have hlt : r < 2 ^ 64 := by
    have h64 : (2 : ℤ) ^ 64 = 18446744073709551616 := by norm_num
    rw [h64]
    omega
  have hmod : r % 2 ^ 64 = r := Int.emod_eq_of_lt h0 hlt
  rw [hmod, leValue_leBytes]
  have h8 : (256 : ℕ) ^ 8 = 18446744073709551616 := by norm_num
  rw [h8]
  apply Nat.mod_eq_of_lt
  omega

/-- Concrete evaluation: converting the number 0 at 9 decimals. -/
theorem safeAmountToRaw_num_zero :
    safeAmountToRaw (.num 0) 9 "SOL" = .ok 0 := by
  simp only [safeAmountToRaw, maxSafeAmount, MAX_SAFE_INTEGER]
  norm_num

/-- Concrete evaluation: converting the number 1 at 9 decimals. -/
theorem safeAmountToRaw_num_one :
    safeAmountToRaw (.num 1) 9 "SOL" = .ok 1000000000 := by
  simp only [safeAmountToRaw, maxSafeAmount, MAX_SAFE_INTEGER]
  norm_num [Rat.floor_def]

/-- C7 (amended): of the three amount-writing entry points, only the wallet
transfer re-checks overflow inside the core — `safeAmountToRaw` never returns
a raw value outside the non-negative safe-integer domain, and every
successfully built transfer's first instruction carries such a value — while
the Solend deposit and withdraw builders perform no overflow re-check and
encode any integer amount below 2^64 (unsafe ones included) into the payload
without raising. -/
theorem amount_overflow_recheck :
    (∀ (v : JsValue) (d : Nat) (sym : String) (r : ℤ),
      safeAmountToRaw v d sym = .ok r →
        0 ≤ r ∧ r.natAbs ≤ MAX_SAFE_INTEGER) ∧
    (∀ (params : TransferParams) (wallet : String) (prep : TransferPrepared)
        (res : BuiltTransfer),
      buildTransferTransaction params wallet prep = .ok res →
      ∃ r : ℤ, 0 ≤ r ∧ r.natAbs ≤ MAX_SAFE_INTEGER ∧
        (res.instructions[0]? = some (buildTokenTransferInstruction
            (prep.senderTokenAccount.getD "")
            (prep.recipientTokenAccount.getD "") wallet r) ∨
         res.instructions[0]? = some (buildSolTransferInstruction wallet
            params.recipient r))) ∧
    (∀ (f t o : String) (r : ℤ), 0 ≤ r → r.natAbs ≤ MAX_SAFE_INTEGER →
      leValue ((buildSolTransferInstruction f t r).data.drop 4) = r.toNat ∧
      leValue ((buildTokenTransferInstruction f t o r).data.drop 1) =
        r.toNat) ∧
    (∀ (a : Nat) (wallet : String) (prep : SolendPrepared), a < 2 ^ 64 →
      leValue
        ((buildDepositTransaction a wallet prep).instruction.data.drop 1) =
        a) ∧
    (∀ (a : Nat) (wallet : String) (prep : SolendPrepared), a < 2 ^ 64 →
      leValue
        ((buildWithdrawTransaction a wallet prep).instruction.data.drop 1) =
        a) := by
  have h8 : (256 : ℕ) ^ 8 = 2 ^ 64 := by norm_num
  refine ⟨safeAmountToRaw_ok_bounds, ?_, ?_, ?_, ?_⟩
  · intro params wallet prep res h
    obtain ⟨r, hb1, hb2, _, hins⟩ :=
      buildTransferTransaction_ok_shape params wallet prep res h
    refine ⟨r, hb1, hb2, ?_⟩
    rw [hins]
    by_cases hb : (jsTruthy params.mint || jsTruthy params.symbol) = true
    · left
      simp [hb]
    · right
      simp [eq_false_of_ne_true hb]
  · intro f t o r h0 h1
    constructor
    · have hlen : (leBytes 4 2).length = 4 := leBytes_length 4 2
      simp only [buildSolTransferInstruction]
      rw [List.drop_left' hlen, leValue_leBytes8_int r h0 h1]
    · simp only [buildTokenTransferInstruction, List.drop_succ_cons,
        List.drop_zero]
      exact leValue_leBytes8_int r h0 h1
  · intro a wallet prep ha
    simp only [buildDepositTransaction, List.drop_succ_cons, List.drop_zero]
    rw [leValue_leBytes, h8, Nat.mod_eq_of_lt ha]
  · intro a wallet prep ha
    simp only [buildWithdrawTransaction, List.drop_succ_cons, List.drop_zero]
    rw [leValue_leBytes, h8, Nat.mod_eq_of_lt ha]

/-- C7 counterexample: the Solend deposit builder encodes the unsafe raw
amount 2^53 — strictly above `MAX_SAFE_INTEGER` — into payload bytes 1-8
and returns, instead of raising a validation error. -/
theorem solend_deposit_encodes_oversized_amount :
    MAX_SAFE_INTEGER < 9007199254740992 ∧
    leValue ((buildDepositTransaction 9007199254740992 "UserWallet111"
      { userUsdcAta := "AtaU", userCusdcAta := "AtaC",
        obligationAccount := "Obl" }).instruction.data.drop 1) =
      9007199254740992 := by
  constructor
  · simp [MAX_SAFE_INTEGER]
  · simp only [buildDepositTransaction, List.drop_succ_cons, List.drop_zero]
    rw [leValue_leBytes]
    norm_num

theorem amount_overflow_recheck_witness :
    ((0 : ℤ) ≤ 1000000000 ∧ (1000000000 : ℤ).natAbs ≤ MAX_SAFE_INTEGER) ∧
    leValue ((buildDepositTransaction 25 "W"
      ⟨"a", "b", "c"⟩).instruction.data.drop 1) = 25 := by
  have h := amount_overflow_recheck
  exact ⟨h.1 (.num 1) 9 "SOL" 1000000000 safeAmountToRaw_num_one,
    h.2.2.2.1 25 "W" ⟨"a", "b", "c"⟩ (by norm_num)⟩

/-- C8 (amended): for every successfully built transfer, a truthy (non-empty)
memo parameter yields exactly two instructions with the transfer instruction
(token- or system-program, by branch) at position 0 and the memo instruction
at position 1; an absent or empty memo yields exactly the one transfer
instruction. -/
theorem buildTransfer_memo_ordering (params : TransferParams)
    (wallet : String) (prep : TransferPrepared) (res : BuiltTransfer)
    (h : buildTransferTransaction params wallet prep = .ok res) :
    (jsTruthy params.memo = true →
      res.instructions.length = 2 ∧
      (res.instructions[1]?.map (fun i => i.programAddress)) =
        some MEMO_PROGRAM_ID ∧
      (res.instructions[0]?.map (fun i => i.programAddress)) =
        some (if jsTruthy params.mint || jsTruthy params.symbol then
          TOKEN_PROGRAM_ID else SYSTEM_PROGRAM_ID)) ∧
    (jsTruthy params.memo = false →
      res.instructions.length = 1 ∧
      (res.instructions[0]?.map (fun i => i.programAddress)) =
        some (if jsTruthy params.mint || jsTruthy params.symbol then
          TOKEN_PROGRAM_ID else SYSTEM_PROGRAM_ID)) := by
  obtain ⟨r, _, _, _, hins⟩ :=
    buildTransferTransaction_ok_shape params wallet prep res h
  constructor
  · intro hm
    rw [hins]
    simp only [hm, if_true]
    refine ⟨rfl, rfl, ?_⟩
    by_cases hb : (jsTruthy params.mint || jsTruthy params.symbol) = true
    · simp [hb, buildTokenTransferInstruction]
    · simp [eq_false_of_ne_true hb, buildSolTransferInstruction]
  · intro hm
    rw [hins]
    simp only [hm, Bool.false_eq_true, if_false]
    refine ⟨rfl, ?_⟩
    by_cases hb : (jsTruthy params.mint || jsTruthy params.symbol) = true
    · simp [hb, buildTokenTransferInstruction]
    · simp [eq_false_of_ne_true hb, buildSolTransferInstruction]

/-- C8 counterexample: with a memo parameter supplied but equal to the empty
string, the source's truthiness test `if (params.memo)` skips the memo
instruction, so the built transaction has exactly one instruction — not the
two the claim implies for every supplied memo. -/
theorem buildTransfer_empty_memo_one_instruction :
    buildTransferTransaction
      ⟨"Rec", .num 0, none, none, some ""⟩ "W" ⟨none, none⟩ =
      .ok ⟨"W", [buildSolTransferInstruction "W" "Rec" 0]⟩ ∧
    [buildSolTransferInstruction "W" "Rec" 0].length = 1 := by
  constructor
  · simp [buildTransferTransaction, jsTruthy, safeAmountToRaw_num_zero,
      bind, Except.bind]
  · rfl

theorem buildTransfer_memo_ordering_witness :
    ∃ res : BuiltTransfer,
      buildTransferTransaction
        ⟨"Rec", .num 0, none, none, some "hi"⟩ "W" ⟨none, none⟩ =
        .ok res ∧
      res.instructions.length = 2 ∧
      (res.instructions[1]?.map (fun i => i.programAddress)) =
        some MEMO_PROGRAM_ID := by
  have hok : buildTransferTransaction
      ⟨"Rec", .num 0, none, none, some "hi"⟩ "W" ⟨none, none⟩ =
      .ok ⟨"W", [buildSolTransferInstruction "W" "Rec" 0,
        buildMemoInstruction "hi"]⟩ := by
    simp [buildTransferTransaction, jsTruthy, safeAmountToRaw_num_zero,
      bind, Except.bind]
  have h := buildTransfer_memo_ordering _ _ _ _ hok
  have h1 := h.1 (by decide)
  exact ⟨_, hok, h1.1, h1.2.1⟩

/-- C2 counterexample: the round trip raises for every input because
`safeAmountToRaw` accepts only numbers while `safeRawToAmount` produces a
string; at raw value 1 with 0 decimals the rendered string is "1" and feeding
it back raises the invalid-amount type error instead of returning 1. -/
theorem roundtrip_raises_at_one :
    safeRawToAmount 1 0 "token" = .ok "1" ∧
    safeAmountToRaw (.str "1") 0 "token" =
      .error "Invalid amount for token: must be a number, got string" :=
  ⟨rfl, rfl⟩

/-- C2 (amended): for every non-negative integer raw value and decimals in
0..18, `safeRawToAmount` renders a decimal string, and `safeAmountToRaw`
applied to that string always raises the invalid-amount type error (it
accepts only numbers), so the round trip never yields the original raw
value. -/
theorem safeRawToAmount_roundtrip_type_error (rawAmount d : Nat)
    (hd : d ≤ 18) :
    (∃ s, safeRawToAmount rawAmount d "token" = .ok s) ∧
    (∀ s, safeRawToAmount rawAmount d "token" = .ok s →
      safeAmountToRaw (.str s) d "token" =
        .error "Invalid amount for token: must be a number, got string") := by
  constructor
  · have hnd : ¬ d > 18 := by omega
    by_cases ht :
        trimTrailingZeros (padStart (Nat.repr (rawAmount % 10 ^ d)) d '0') =
          ""
    · exact ⟨Nat.repr (rawAmount / 10 ^ d),
        by simp only [safeRawToAmount, if_neg hnd, if_pos ht]⟩
    · exact ⟨Nat.repr (rawAmount / 10 ^ d) ++ "." ++
        trimTrailingZeros (padStart (Nat.repr (rawAmount % 10 ^ d)) d '0'),
        by simp only [safeRawToAmount, if_neg hnd, if_neg ht]⟩
  · intro s _
    rfl

theorem safeRawToAmount_roundtrip_type_error_witness :
    safeAmountToRaw (.str "1.5") 1 "token" =
      .error "Invalid amount for token: must be a number, got string" :=
  (safeRawToAmount_roundtrip_type_error 15 1 (by norm_num)).2 "1.5" (by rfl)

end Protocols
